import Mathlib

/-!
Verification of the Travver itinerary-generation backend.

Shallow embedding of the Python source under `backend/`:
* `models/travel.py`        - data model and pydantic validation
* `agents/travel_planner_agent.py` - itinerary synthesis, lenient parsing, fallback
* `services/openai_service.py`     - retrying completion calls and tool-call loop
* `tools/exchange_tool.py`  - exchange-rate lookup with fallback table
* `agents/travel_consultant_agent.py` - chat streaming with canned fallback

Machine integers are modelled as `Int`/`Nat`; geographic coordinates are
exact short decimals in the source and are modelled as `Int` counts of
1/10000 degree (so the pydantic bounds +-90 / +-180 become +-900000 /
+-1800000); exchange rates are modelled as `Rat`; fallible code returns
`Option`/`Except`.  Python's `json`
standard library is an external collaborator: a successfully loaded
itinerary document is represented by the `JsonDoc` shape of spec section 6,
and the repository-owned extraction / iteration / validation logic is
embedded faithfully around it.
-/

/-! ### Small Python-string helpers (str.find, str.lower, `in`) -/

/-- Python `str.lower` restricted to ASCII; the Korean keywords used by the
repository are unaffected by case mapping. -/
def asciiLowerChar (c : Char) : Char :=
  if 'A' ≤ c && c ≤ 'Z' then Char.ofNat (c.toNat + 32) else c

def asciiLower (s : String) : String :=
  String.mk (s.data.map asciiLowerChar)

/-- Python `str.upper` restricted to ASCII (currency codes). -/
def asciiUpperChar (c : Char) : Char :=
  if 'a' ≤ c && c ≤ 'z' then Char.ofNat (c.toNat - 32) else c

def asciiUpper (s : String) : String :=
  String.mk (s.data.map asciiUpperChar)

def isPrefixList : List Char → List Char → Bool
  | [], _ => true
  | _ :: _, [] => false
  | a :: as, b :: bs => a == b && isPrefixList as bs

def isInfixList (pat : List Char) : List Char → Bool
  | [] => pat.isEmpty
  | l@(_ :: t) => isPrefixList pat l || isInfixList pat t

/-- Python `sub in s` on strings. -/
def pyContains (s sub : String) : Bool :=
  isInfixList sub.data s.data

/-- Python `str.find` for a single-character needle, on an exploded string:
index of the first matching character. -/
def pyFindChar (p : Char → Bool) : List Char → Option Nat
  | [] => none
  | c :: cs => if p c then some 0 else (pyFindChar p cs).map (· + 1)

/-- Python `str.rfind` for a single-character needle: index of the last
matching character. -/
def pyRFindChar (p : Char → Bool) (s : List Char) : Option Nat :=
  (pyFindChar p s.reverse).map (fun k => s.length - 1 - k)

/-! ### Data model (`models/travel.py`) -/

inductive TravelStyle
  | food | sightseeing | relaxation | activity | shopping | photo
deriving DecidableEq, Repr

inductive PlaceCategory
  | food | sightseeing | accommodation | activity | shopping | transport
  | rest | photo
deriving DecidableEq, Repr

inductive TripStatus
  | upcoming | ongoing | completed
deriving DecidableEq, Repr

/-- `PlaceCategory(value)`: the enum constructor used by the schedule parser;
an unknown string raises (modelled by `none`). -/
def placeCategoryFromString (s : String) : Option PlaceCategory :=
  if s = "food" then some .food
  else if s = "sightseeing" then some .sightseeing
  else if s = "accommodation" then some .accommodation
  else if s = "activity" then some .activity
  else if s = "shopping" then some .shopping
  else if s = "transport" then some .transport
  else if s = "rest" then some .rest
  else if s = "photo" then some .photo
  else none

/-- The pydantic pattern `^\d{2}:\d{2}$` on `Schedule.time`: exactly two
digits, a colon, two digits.  Note it does NOT bound the numeric values. -/
def timePattern (s : String) : Bool :=
  match s.data with
  | [a, b, c, d, e] => a.isDigit && b.isDigit && (c == ':') && d.isDigit && e.isDigit
  | _ => false

/-- A strict `HH:MM` clock time with hour 00-23 and minute 00-59 (the
property the spec asserts of parsed schedule times). -/
def hhmmStrict (s : String) : Bool :=
  match s.data with
  | [a, b, c, d, e] =>
      a.isDigit && b.isDigit && (c == ':') && d.isDigit && e.isDigit &&
      ((a.toNat - 48) * 10 + (b.toNat - 48) ≤ 23) &&
      ((d.toNat - 48) * 10 + (e.toNat - 48) ≤ 59)
  | _ => false

/-- A time range `HH:MM-HH:MM` such as `09:00-10:40` (the raw-model-output
shape the spec says gets normalized to its start bound). -/
def timeRangePattern (s : String) : Bool :=
  match s.data with
  | [a, b, c, d, e, f, g, h, i, j, k] =>
      a.isDigit && b.isDigit && (c == ':') && d.isDigit && e.isDigit &&
      (f == '-') &&
      g.isDigit && h.isDigit && (i == ':') && j.isDigit && k.isDigit
  | _ => false

/-- `models/travel.py::Schedule` (validated fields only; the optional
`image_url`/`rating`/`place_id` fields default to `None` on the paths the
claims exercise and are omitted). -/
structure Schedule where
  order : Int
  time : String
  place : String
  category : PlaceCategory
  duration_min : Int
  estimated_cost : Int
  description : String
  lat : Int
  lng : Int
deriving DecidableEq, Repr

/-- `models/travel.py::DailyPlan` (dates as day ordinals). -/
structure DailyPlan where
  day : Int
  plan_date : Int
  theme : String
  schedules : List Schedule
deriving DecidableEq, Repr

/-- `models/travel.py::Trip` (creation timestamp and the uuid-derived id are
passed in by the caller of the embedding; they are produced by external
sources of nondeterminism). -/
structure Trip where
  id : String
  destination : String
  period_start : Int
  period_end : Int
  travelers : Int
  budget_estimated : Int
  styles : List TravelStyle
  daily_plans : List DailyPlan
  status : TripStatus
deriving Repr

/-! ### Mock place data (`travel_planner_agent.py::_get_real_places`) -/

structure PlaceEntry where
  name : String
  desc : String
  lat : Int
  lng : Int
deriving DecidableEq, Repr

structure PlacesData where
  themes : List String
  breakfast : List PlaceEntry
  sightseeing : List PlaceEntry
  lunch : List PlaceEntry
  activity : List PlaceEntry
  dinner : List PlaceEntry
deriving Repr

def osakaPlaces : PlacesData where
  themes := ["도톤보리 & 난바 탐방", "오사카성 & 역사 투어", "신세카이 & 로컬 맛집", "우메다 & 쇼핑"]
  breakfast := [
    ⟨"이치란 라멘 도톤보리점", "24시간 운영 돈코츠 라멘 본점", 346687, 1355013⟩,
    ⟨"마루카메 제면 난바점", "갓 뽑은 사누키 우동 전문점", 346654, 1355014⟩,
    ⟨"에그슬럿 오사카", "LA 감성 에그 샌드위치 브런치", 347025, 1354959⟩,
    ⟨"하드락 카페 오사카", "미국식 아침 세트 메뉴", 346686, 1354299⟩]
  sightseeing := [
    ⟨"오사카성 천수각", "도요토미 히데요시가 세운 일본 3대 성곽", 346873, 1355262⟩,
    ⟨"도톤보리 글리코상", "오사카의 상징적인 네온사인 거리", 346687, 1355010⟩,
    ⟨"츠텐카쿠 전망대", "신세카이의 랜드마크 타워", 346525, 1355063⟩,
    ⟨"우메다 스카이빌딩 공중정원", "173m 높이 360도 파노라마 전망", 347052, 1354906⟩]
  lunch := [
    ⟨"쿠라스시 도톤보리점", "회전초밥 체인, 100엔 스시", 346690, 1355025⟩,
    ⟨"하루카스 다이닝", "아베노 하루카스 레스토랑가", 346463, 1355138⟩,
    ⟨"치보 본점", "오코노미야키 명가, 70년 전통", 346685, 1355013⟩,
    ⟨"키지 본점", "철판 오코노미야키의 성지", 347048, 1354948⟩]
  activity := [
    ⟨"유니버설 스튜디오 재팬", "해리포터, 슈퍼닌텐도월드 테마파크", 346654, 1354323⟩,
    ⟨"신세카이 쟝쟝요코초", "레트로 골목 탐방 & 꼬치튀김 체험", 346520, 1355060⟩,
    ⟨"구로몬 시장", "오사카의 부엌, 신선한 해산물 시식", 346668, 1355069⟩,
    ⟨"덴덴타운", "오사카의 아키하바라, 전자상가 & 서브컬처", 346598, 1355056⟩]
  dinner := [
    ⟨"칸자키 갓텐 스시", "신선한 스시 오마카세", 346977, 1354912⟩,
    ⟨"다루마 신세카이 본점", "쿠시카츠(꼬치튀김) 원조 맛집", 346522, 1355059⟩,
    ⟨"아지노야 본점", "타코야키 원조 맛집, 18개입", 346525, 1355065⟩,
    ⟨"마츠리야", "야키니쿠 무한리필 전문점", 347005, 1354973⟩]

def jejuPlaces : PlacesData where
  themes := ["제주시 & 동문시장 탐방", "성산일출봉 & 동부 투어", "서귀포 & 중문 관광", "애월 & 서부 카페 투어"]
  breakfast := [
    ⟨"올래국수", "제주 고기국수 맛집, 줄서는 식당", 335121, 1265232⟩,
    ⟨"삼대국수회관", "3대째 이어온 고기국수 명가", 334996, 1265287⟩,
    ⟨"우진해장국", "제주 현지인 아침 해장 맛집", 334912, 1264935⟩,
    ⟨"명진전복 본점", "전복죽, 전복돌솥밥 전문점", 335025, 1265412⟩]
  sightseeing := [
    ⟨"성산일출봉", "유네스코 세계자연유산, 해돋이 명소", 334587, 1269425⟩,
    ⟨"만장굴", "세계 최장 용암동굴, 천연기념물", 335282, 1267712⟩,
    ⟨"천지연폭포", "서귀포 대표 폭포, 야간 조명", 332469, 1265548⟩,
    ⟨"한라산 어리목 코스", "제주 최고봉 트레킹", 333617, 1264969⟩]
  lunch := [
    ⟨"제주김만복 본점", "전복김밥, 성게김밥 원조", 335012, 1265287⟩,
    ⟨"돈사돈 본점", "제주 흑돼지 구이 맛집", 334856, 1264923⟩,
    ⟨"미영이네 식당", "갈치조림, 옥돔구이 현지 맛집", 332512, 1265612⟩,
    ⟨"자매국수", "제주 비빔국수, 고기국수 맛집", 332469, 1265023⟩]
  activity := [
    ⟨"섭지코지", "드라마 촬영지, 해안 절경 산책로", 334240, 1269296⟩,
    ⟨"우도", "소가 누운 모양의 아름다운 섬", 335063, 1269520⟩,
    ⟨"카멜리아힐", "동양 최대 동백꽃 수목원", 332898, 1263689⟩,
    ⟨"아쿠아플라넷 제주", "아시아 최대 규모 아쿠아리움", 334337, 1269269⟩]
  dinner := [
    ⟨"흑돼지거리 돈사돈", "제주 흑돼지 숯불구이", 334856, 1264923⟩,
    ⟨"광해회국수", "전복, 소라, 성게 해산물 국수", 334687, 1269165⟩,
    ⟨"제주 동문시장 야시장", "현지 먹거리 투어, 흑돼지꼬치", 335125, 1265260⟩,
    ⟨"오는정김밥", "한치물회, 성게비빔밥 맛집", 332512, 1265123⟩]

/-- `places_db.get(destination, places_db["오사카"])`. -/
def get_real_places (destination : String) : PlacesData :=
  if destination = "오사카" then osakaPlaces
  else if destination = "제주도" then jejuPlaces
  else osakaPlaces

/-- Python `l[i % len(l)]` (all lists fed to it are nonempty literals, so
the default of `getD` is dead). -/
def cycleGet (l : List PlaceEntry) (i : Nat) : PlaceEntry :=
  l.getD (i % l.length) ⟨"", "", 0, 0⟩

def cycleGetTheme (l : List String) (i : Nat) : String :=
  l.getD (i % l.length) ""

/-- `int(daily_budget * frac)` with `frac` one of 0.1/0.15/0.2/0.25/0.3.
Python computes this in binary floating point; it is modelled as the exact
rational product truncated toward zero (`pct` in hundredths).  No claim
depends on the cost fields. -/
def mockCost (dailyBudget : Nat) (pct : Nat) : Int :=
  Int.ofNat (dailyBudget * pct / 100)

/-! ### Fallback generator (`_generate_mock_plans`) -/

/-- One day of the deterministic fallback itinerary (the body of the
`for day in range(num_days)` loop). -/
def mockDay (places : PlacesData) (themes : List String) (start_date : Int)
    (dailyBudget : Nat) (day : Nat) : DailyPlan :=
  let breakfast := cycleGet places.breakfast day
  let sightseeing := cycleGet places.sightseeing day
  let lunch := cycleGet places.lunch day
  let activity := cycleGet places.activity day
  let dinner := cycleGet places.dinner day
  { day := Int.ofNat day + 1
    plan_date := start_date + Int.ofNat day
    theme := cycleGetTheme themes day
    schedules := [
      { order := 1, time := "09:30", place := breakfast.name,
        category := .food, duration_min := 60,
        estimated_cost := mockCost dailyBudget 10,
        description := breakfast.desc, lat := breakfast.lat, lng := breakfast.lng },
      { order := 2, time := "11:00", place := sightseeing.name,
        category := .sightseeing, duration_min := 120,
        estimated_cost := mockCost dailyBudget 15,
        description := sightseeing.desc, lat := sightseeing.lat, lng := sightseeing.lng },
      { order := 3, time := "13:30", place := lunch.name,
        category := .food, duration_min := 90,
        estimated_cost := mockCost dailyBudget 20,
        description := lunch.desc, lat := lunch.lat, lng := lunch.lng },
      { order := 4, time := "15:30", place := activity.name,
        category := .activity, duration_min := 120,
        estimated_cost := mockCost dailyBudget 25,
        description := activity.desc, lat := activity.lat, lng := activity.lng },
      { order := 5, time := "18:00", place := dinner.name,
        category := .food, duration_min := 120,
        estimated_cost := mockCost dailyBudget 30,
        description := dinner.desc, lat := dinner.lat, lng := dinner.lng } ] }

/-- `travel_planner_agent.py::_generate_mock_plans`.  `num_days` is
`(end - start).days + 1`; `range(num_days)` is empty when that is ≤ 0.
The `styles`/`places_info` parameters of the Python function are unused by
its body and omitted. -/
def generate_mock_plans (destination : String) (start_date end_date : Int)
    (budget : Nat) : List DailyPlan :=
  let numDaysInt : Int := end_date - start_date + 1
  let numDays : Nat := numDaysInt.toNat
  let dailyBudget : Nat := if 0 < numDaysInt then budget / numDays else budget
  let places := get_real_places destination
  let themes := places.themes
  (List.range numDays).map (mockDay places themes start_date dailyBudget)

/-! ### JSON extraction (`_parse_daily_plans`, lines 366-377)

`json_start = content.find("{")`, `json_end = content.rfind("}") + 1`,
slice `content[json_start:json_end]`; `none` models the early
`return []` when either brace is missing. -/

def extract_json (content : List Char) : Option (List Char) :=
  match pyFindChar (· == '{') content, pyRFindChar (· == '}') content with
  | some i, some j => some ((content.drop i).take (j + 1 - i))
  | _, _ => none

/-- Modelled from the spec: the extraction the spec describes - "first
searching for a fenced code block and, only if none is found, falling back
to the widest `{...}` span in the raw text".  A fenced code block is a
substring delimited by a pair of triple-backtick fences; its body is
returned when present.  Used only to compare against `extract_json`. -/
def findFenceIdx : List Char → Option Nat
  | [] => none
  | l@(_ :: t) =>
      if isPrefixList ('`' :: '`' :: '`' :: []) l then some 0
      else (findFenceIdx t).map (· + 1)

def extract_json_spec (content : List Char) : Option (List Char) :=
  match findFenceIdx content with
  | some i =>
      let afterOpen := content.drop (i + 3)
      match findFenceIdx afterOpen with
      | some j => some (afterOpen.take j)
      | none => extract_json content
  | none => extract_json content

/-! ### LLM reply parsing (`_parse_daily_plans`, lines 379-418)

A successfully `json.loads`-ed reply is a `JsonDoc` (spec section 6 shape).
Raw fields are `Option`-al: a missing schedule key raises `KeyError`,
which the per-schedule `try` turns into a dropped item, while a missing or
invalid plan-level field raises out of the whole parse (only
`json.JSONDecodeError` is caught there) - modelled by `Except`. -/

structure RawLocation where
  lat : Int
  lng : Int
deriving DecidableEq, Repr

inductive RawDate
  | absent
  | malformed
  | valid (d : Int)
deriving DecidableEq, Repr

structure RawSchedule where
  order : Option Int
  time : Option String
  place : Option String
  category : Option String
  duration_min : Option Int
  estimated_cost : Int := 0
  description : String := ""
  location : Option RawLocation
deriving Repr

structure RawPlan where
  day : Option Int
  date : RawDate
  theme : Option String
  schedules : List RawSchedule
deriving Repr

structure JsonDoc where
  daily_plans : List RawPlan
deriving Repr

/-- The pydantic field checks of `Schedule` (all fields are validated;
validation is all-or-nothing, so the check order is immaterial). -/
def schedule_ok (o : Int) (t pl : String) (dur ec : Int) (desc : String)
    (loc : RawLocation) : Bool :=
  timePattern t &&
  decide (1 ≤ o) &&
  decide (1 ≤ pl.length) && decide (pl.length ≤ 200) &&
  decide (15 ≤ dur) && decide (dur ≤ 480) &&
  decide (0 ≤ ec) &&
  decide (desc.length ≤ 500) &&
  decide (-900000 ≤ loc.lat) && decide (loc.lat ≤ 900000) &&
  decide (-1800000 ≤ loc.lng) && decide (loc.lng ≤ 1800000)

/-- The per-schedule body: `Schedule(...)` construction under pydantic
validation; `none` models the `except` branch that logs and drops the
item (a missing required key or a failed check both raise there). -/
def parse_schedule (r : RawSchedule) : Option Schedule :=
  r.order.bind fun o =>
  r.time.bind fun t =>
  r.place.bind fun pl =>
  r.category.bind fun cat =>
  r.duration_min.bind fun dur =>
  r.location.bind fun loc =>
  (placeCategoryFromString cat).bind fun c =>
  if schedule_ok o t pl dur r.estimated_cost r.description loc
  then some { order := o, time := t, place := pl, category := c,
              duration_min := dur, estimated_cost := r.estimated_cost,
              description := r.description, lat := loc.lat, lng := loc.lng }
  else none

/-- The plan loop of `_parse_daily_plans`: plans whose schedules all failed
are skipped; a plan-level failure (missing `day`, unparseable `date`,
pydantic `DailyPlan` rejection) raises out of the parse. -/
def build_daily_plans (start_date : Int) : List RawPlan → Except Unit (List DailyPlan)
  | [] => .ok []
  | p :: ps =>
      let scheds := p.schedules.filterMap parse_schedule
      if scheds.isEmpty then build_daily_plans start_date ps
      else
        match p.day with
        | none => .error ()
        | some d =>
            if d < 1 then .error ()
            else
              match p.date with
              | .malformed => .error ()
              | .absent =>
                  let th := p.theme.getD ""
                  if th.length > 100 then .error ()
                  else
                    match build_daily_plans start_date ps with
                    | .error e => .error e
                    | .ok rest =>
                        .ok ({ day := d, plan_date := start_date + d - 1,
                               theme := th, schedules := scheds } :: rest)
              | .valid dt =>
                  let th := p.theme.getD ""
                  if th.length > 100 then .error ()
                  else
                    match build_daily_plans start_date ps with
                    | .error e => .error e
                    | .ok rest =>
                        .ok ({ day := d, plan_date := dt,
                               theme := th, schedules := scheds } :: rest)

/-- Outcome of the LLM stage seen by `_generate_daily_plans`:
`none` - `openai_service.is_available()` is false;
`some (.error ())` - `execute_with_tools` or post-load processing raised;
`some (.ok none)` - no JSON found in the reply or `json.JSONDecodeError`
(the parse returned `[]`); `some (.ok (some doc))` - reply extracted and
loaded into `doc`. -/
def LlmStage : Type := Option (Except Unit (Option JsonDoc))

/-- `_generate_daily_plans` final dispatch: parsed plans when the LLM path
produced a nonempty list, otherwise `_generate_mock_plans`. -/
def generate_daily_plans (llm : LlmStage) (destination : String)
    (start_date end_date : Int) (budget : Nat) : List DailyPlan :=
  let mock := generate_mock_plans destination start_date end_date budget
  match llm with
  | none => mock
  | some (.error _) => mock
  | some (.ok contentDoc) =>
      let parsed : Except Unit (List DailyPlan) :=
        match contentDoc with
        | none => .ok []
        | some doc => build_daily_plans start_date doc.daily_plans
      match parsed with
      | .error _ => mock
      | .ok plans => if plans.isEmpty then mock else plans

/-- `travel_planner_agent.py::generate_plan`: wraps the generated daily
plans into a `Trip` (uuid/timestamp passed in; exchange-rate and
place-collection results do not influence the fallback output). -/
def generate_plan (llm : LlmStage) (uid : String) (destination : String)
    (start_date end_date : Int) (travelers : Int) (budget : Nat)
    (styles : List TravelStyle) : Trip :=
  { id := "trip_" ++ uid
    destination := destination
    period_start := start_date
    period_end := end_date
    travelers := travelers
    budget_estimated := Int.ofNat budget * travelers
    styles := styles
    daily_plans := generate_daily_plans llm destination start_date end_date budget
    status := .upcoming }

/-! ### Completion-call retry (`openai_service.py::chat_completion`)

The tenacity decorator is
`retry(stop=stop_after_attempt(3), wait=wait_exponential(...),
retry=retry_if_exception_type(OpenAIError))`, while the function body
catches `OpenAIError` and re-raises it as `RateLimitException` /
`OpenAIException` (which, per `core/exceptions.py`, derive from
`TravverException`, NOT from `OpenAIError`). -/

inductive AppError
  /-- An `openai.OpenAIError` raised by the client library itself. -/
  | openAIErrorRaw (msg : String)
  /-- `core/exceptions.py::RateLimitException` (a `TravverException`). -/
  | rateLimitExc (msg : String)
  /-- `core/exceptions.py::OpenAIException` (a `TravverException`). -/
  | openAIExc (msg : String)
  | otherExc (msg : String)
deriving DecidableEq, Repr

/-- `retry_if_exception_type(OpenAIError)`: `isinstance(e, OpenAIError)`. -/
def isOpenAIErrorInstance : AppError → Bool
  | .openAIErrorRaw _ => true
  | _ => false

/-- What one invocation of the decorated function's body returns. -/
structure CompletionResp where
  content : Option String
  tool_calls : List (String × String × String)
deriving DecidableEq, Repr

/-- tenacity's retry loop: re-invoke the body while the raised exception
satisfies the retry predicate and the attempt ceiling is not reached.
Returns the outcome and the number of attempts made.  (Exhaustion raises a
`RetryError` wrapper in tenacity; the wrapped final error is returned -
no theorem depends on the exhaustion path.)  The `0, made` case is
unreachable from `tenacityRun` with a positive ceiling. -/
def tenacityGo {α : Type} (retryOn : AppError → Bool)
    (body : Nat → Except AppError α) : Nat → Nat → Except AppError α × Nat
  | 0, made => (.error (.otherExc "no attempts"), made)
  | remaining + 1, made =>
      match body made with
      | .ok a => (.ok a, made + 1)
      | .error e =>
          if retryOn e && decide (0 < remaining) then
            tenacityGo retryOn body remaining (made + 1)
          else
            (.error e, made + 1)

def tenacityRun {α : Type} (retryOn : AppError → Bool) (maxAttempts : Nat)
    (body : Nat → Except AppError α) : Except AppError α × Nat :=
  tenacityGo retryOn body maxAttempts 0

/-- The body of `chat_completion`: invoke the underlying API (`api n` is
the outcome of the n-th attempt) and convert `OpenAIError` into the
application exceptions, checking `"rate_limit" in str(e).lower()`. -/
def chat_completion_body (api : Nat → Except AppError CompletionResp)
    (n : Nat) : Except AppError CompletionResp :=
  match api n with
  | .ok r => .ok r
  | .error (.openAIErrorRaw msg) =>
      if pyContains (asciiLower msg) ("rate_limit") then
        .error (.rateLimitExc ("OpenAI rate limit exceeded"))
      else
        .error (.openAIExc msg)
  | .error e => .error e

/-- `chat_completion` as decorated: tenacity around the converting body. -/
def chat_completion_call (api : Nat → Except AppError CompletionResp) :
    Except AppError CompletionResp × Nat :=
  tenacityRun isOpenAIErrorInstance 3 (chat_completion_body api)

/-! ### Tool-call loop (`openai_service.py::execute_with_tools`) -/

inductive Role
  | system | user | assistant | tool
deriving DecidableEq, Repr

structure ToolCall where
  id : String
  name : String
  args : String
deriving DecidableEq, Repr

structure Msg where
  role : Role
  content : String
  tool_call_id : Option String := none
  tool_calls : List ToolCall := []
deriving DecidableEq, Repr

/-- A model response as `chat_completion` returns it to the loop. -/
structure ModelResp where
  content : Option String
  tool_calls : List ToolCall
deriving DecidableEq, Repr

/-- How the loop parameterizes each completion request:
`auto`/`noneChoice` are `tool_choice="auto"`/`"none"` with the catalog
attached; `noTools` is a call with `tools=None`. -/
inductive ToolMode
  | auto | noneChoice | noTools
deriving DecidableEq, Repr

/-- The external model: a completion outcome for each transcript and mode.
(Transport failures raise out of `execute_with_tools` and are handled by
its callers; the loop itself is specified on successful completions.) -/
def Model : Type := List Msg → ToolMode → ModelResp

/-- Handler map: `tool_handlers` with each handler either returning a
result payload (already JSON-encoded) or raising. -/
def Handlers : Type := String → Option (String → Except String String)

/-- `json.dumps({"error": str(e)})`. -/
def jsonErr (e : String) : String :=
  "\x7b\"error\": \"" ++ e ++ "\"\x7d"

def toolMsg (callId : String) (content : String) : Msg :=
  { role := .tool, content := content, tool_call_id := some callId }

/-- `if not response["content"]`: Python falsiness of the nullable text. -/
def contentFalsy : Option String → Bool
  | none => true
  | some s => s.isEmpty

/-- The body of the `for tool_call in response["tool_calls"]` loop:
record the attempted name, run the handler (an exception becomes the JSON
error payload, an unknown name the unknown-tool payload), append the tool
result message. -/
def execToolCall (handlers : Handlers) (acc : List Msg × List String)
    (tc : ToolCall) : List Msg × List String :=
  let result :=
    match handlers tc.name with
    | some h =>
        match h tc.args with
        | .ok r => r
        | .error e => jsonErr e
    | none => jsonErr ("Unknown tool: " ++ tc.name)
  (acc.1 ++ [toolMsg tc.id result], acc.2 ++ [tc.name])

/-- The assistant message appended before executing a batch of tool calls
(`response["content"] or ""`). -/
def assistantMsg (r : ModelResp) : Msg :=
  { role := .assistant, content := (r.content.getD ""), tool_calls := r.tool_calls }

structure RunResult where
  content : Option String
  tools_used : List String
  iterations : Nat
  model_calls : Nat
deriving DecidableEq, Repr

/-- The `while iteration < max_iterations` loop, by remaining iteration
count (`rem + 1` remaining ↔ `iteration < max_iterations` before the
increment; `rem = 0` makes this the final permitted iteration, forced to
`tool_choice="none"`).  The `0` case is the post-loop forced
`chat_completion(messages, tools=None)`. -/
def ewtGo (model : Model) (handlers : Handlers) :
    Nat → List Msg → List String → Nat → Nat → RunResult
  | 0, msgs, used, iters, calls =>
      let r := model msgs .noTools
      { content := r.content, tools_used := used,
        iterations := iters, model_calls := calls + 1 }
  | rem + 1, msgs, used, iters, calls =>
      let choice := if rem = 0 then ToolMode.noneChoice else ToolMode.auto
      let r := model msgs choice
      if r.tool_calls.isEmpty then
        if contentFalsy r.content then
          let retry := model msgs .noTools
          { content := retry.content, tools_used := used,
            iterations := iters + 1, model_calls := calls + 2 }
        else
          { content := r.content, tools_used := used,
            iterations := iters + 1, model_calls := calls + 1 }
      else
        let start := (msgs ++ [assistantMsg r], used)
        let next := r.tool_calls.foldl (execToolCall handlers) start
        ewtGo model handlers rem next.1 next.2 (iters + 1) (calls + 1)

/-- `openai_service.py::execute_with_tools`. -/
def execute_with_tools (model : Model) (handlers : Handlers)
    (max_iterations : Nat) (messages : List Msg) : RunResult :=
  ewtGo model handlers max_iterations messages [] 0 0

/-! ### Place collection (`travel_planner_agent.py::_collect_places`) -/

/-- The `style_queries` dict; every enum member is a key, so the
`.get(style, [style.value])` default is dead. -/
def style_queries : TravelStyle → List String
  | .food => ["맛집", "레스토랑", "현지 음식"]
  | .sightseeing => ["관광지", "명소", "랜드마크"]
  | .relaxation => ["온천", "스파", "공원"]
  | .activity => ["액티비티", "체험", "투어"]
  | .shopping => ["쇼핑", "시장", "백화점"]
  | .photo => ["포토스팟", "뷰포인트", "인스타그램"]

/-- The external `places_tool.search_places` oracle: for a query string,
either a result list or a raised exception. -/
def SearchOracle : Type := String → Except String (List String)

/-- One step of the inner `for query in queries` loop: try the search,
extend the style's results on success, log-and-skip on a raised exception
(the `except` branch), and record the query as issued. -/
def collectStep (search : SearchOracle) (acc : List String × List String)
    (q : String) : List String × List String :=
  match search q with
  | .ok results => (acc.1 ++ results, acc.2 ++ [q])
  | .error _ => (acc.1, acc.2 ++ [q])

/-- The inner loop: accumulate successes, skip failures, log every query. -/
def collectStyle (search : SearchOracle) (queries : List String) :
    List String × List String :=
  queries.foldl (collectStep search) ([], [])

/-- One step of the outer `for style in styles` loop. -/
def collectStylesStep (search : SearchOracle)
    (acc : List (TravelStyle × List String) × List String)
    (st : TravelStyle) : List (TravelStyle × List String) × List String :=
  let r := collectStyle search (style_queries st)
  (acc.1 ++ [(st, r.1)], acc.2 ++ r.2)

/-- `_collect_places`: per-style place lists plus the full log of
`search_places` invocations made. -/
def collect_places (search : SearchOracle) (styles : List TravelStyle) :
    List (TravelStyle × List String) × List String :=
  styles.foldl (collectStylesStep search) ([], [])

/-! ### Exchange rates (`tools/exchange_tool.py`) -/

/-- A rate result dict.  The success path of the Python code has no
`is_fallback` key; absence is modelled as `is_fallback = false`.  The
presentational `example.description` string is omitted; `converted` is
`round(10000 * rate, 2)` modelled as the exact rational (no claim reads
it). -/
structure RateResult where
  from_currency : String
  to_currency : String
  rate : Rat
  inverse_rate : Rat
  is_fallback : Bool
  example_converted : Rat
deriving DecidableEq, Repr

/-- The static approximate-rate table of `_get_fallback_rate`. -/
def fallback_rates : List ((String × String) × Rat) :=
  [(("KRW", "JPY"), 0.11),
   (("KRW", "USD"), 0.00075),
   (("KRW", "EUR"), 0.00069),
   (("KRW", "THB"), 0.027),
   (("KRW", "CNY"), 0.0054),
   (("JPY", "KRW"), 9.1),
   (("USD", "KRW"), 1330)]

def lookupPair (k : String × String) : List ((String × String) × Rat) → Option Rat
  | [] => none
  | (k2, v) :: rest => if k = k2 then some v else lookupPair k rest

/-- `exchange_tool.py::_get_fallback_rate`. -/
def get_fallback_rate (from_currency to_currency : String) : RateResult :=
  let rate := (lookupPair (from_currency, to_currency) fallback_rates).getD 1
  { from_currency := from_currency
    to_currency := to_currency
    rate := rate
    inverse_rate := if 0 < rate then 1 / rate else 0
    is_fallback := true
    example_converted := 10000 * rate }

/-- What the provider interaction produced: a raised exception (transport
error, timeout, bad JSON body) or an HTTP status with a rate table. -/
inductive ApiOutcome
  | excRaised
  | status (code : Nat) (rates : List (String × Rat))
deriving Repr

def lookupRate (k : String) : List (String × Rat) → Option Rat
  | [] => none
  | (k2, v) :: rest => if k = k2 then some v else lookupRate k rest

def rateCacheKey (f t : String) : String := f ++ "_" ++ t

def lookupCache (k : String) : List (String × RateResult) → Option RateResult
  | [] => none
  | (k2, v) :: rest => if k = k2 then some v else lookupCache k rest

/-- `exchange_tool.py::get_exchange_rate` (single call, explicit cache
state): cache hit returns the stored dict; otherwise non-200 status,
missing currency or a raised exception divert to `_get_fallback_rate`,
and only the authoritative success result is written back to the cache. -/
def get_exchange_rate (cache : List (String × RateResult)) (api : ApiOutcome)
    (from_currency to_currency : String) : RateResult × List (String × RateResult) :=
  let f := asciiUpper from_currency
  let t := asciiUpper to_currency
  let key := rateCacheKey f t
  match lookupCache key cache with
  | some r => (r, cache)
  | none =>
      match api with
      | .excRaised => (get_fallback_rate f t, cache)
      | .status code rates =>
          if code ≠ 200 then (get_fallback_rate f t, cache)
          else
            match lookupRate t rates with
            | none => (get_fallback_rate f t, cache)
            | some rate =>
                let res : RateResult :=
                  { from_currency := f, to_currency := t, rate := rate
                    inverse_rate := if 0 < rate then 1 / rate else 0
                    is_fallback := false
                    example_converted := 10000 * rate }
                (res, cache ++ [(key, res)])

/-- The provider outcomes that take the fallback branch for target
currency `t` (after upper-casing). -/
def fallbackTaken (api : ApiOutcome) (t : String) : Bool :=
  match api with
  | .excRaised => true
  | .status code rates => code ≠ 200 || (lookupRate t rates).isNone

/-! ### Consultant streaming (`travel_consultant_agent.py`) -/

def fallbackFoodText : String :=
  "맛집 추천을 원하시는군요!\n\n현재 AI 서비스 연결이 원활하지 않아 실시간 검색이 어렵습니다.\n\n대신 일반적인 팁을 드리면:\n1. Google Maps에서 평점 4.0 이상인 곳을 찾아보세요\n2. 현지인이 많이 가는 곳이 보통 맛있어요\n3. 점심 시간은 피크타임이라 대기가 길 수 있어요\n\n조금 후에 다시 시도해주시면 더 자세한 추천을 드릴 수 있을 거예요!"

def fallbackCurrencyText : String :=
  "환율 정보를 원하시는군요!\n\n현재 서비스 연결이 원활하지 않아 실시간 환율 조회가 어렵습니다.\n\n일반적인 팁:\n- 공항보다 시내 환전소가 유리한 경우가 많아요\n- 신용카드 해외 결제도 괜찮은 편이에요\n- 대형 쇼핑몰에서는 보통 카드 결제가 가능해요\n\n실시간 환율은 네이버나 구글에서 확인해보세요!"

def fallbackTranslateText : String :=
  "번역/현지어 도움을 원하시는군요!\n\n자주 쓰이는 표현들:\n\n🇯🇵 일본어\n- 안녕하세요: こんにちは (곤니치와)\n- 감사합니다: ありがとう (아리가또)\n- 이거 주세요: これください (코레 쿠다사이)\n- 얼마예요?: いくらですか (이쿠라데스카)\n\n궁금한 표현이 있으시면 말씀해주세요!"

def fallbackGenericText : String :=
  "안녕하세요! AI 여행 컨설턴트입니다.\n\n현재 서비스 연결이 원활하지 않아 일부 기능이 제한될 수 있습니다.\n\n도움 드릴 수 있는 것들:\n- 여행지 맛집/관광지 추천\n- 환율 정보\n- 간단한 현지어 번역\n- 여행 팁\n\n무엇이 궁금하신가요?"

/-- `travel_consultant_agent.py::_generate_fallback_response`: keyword
buckets over the lower-cased message. -/
def generate_fallback_response (message : String) : String :=
  let ml := asciiLower message
  if ["맛집", "음식", "먹", "레스토랑"].any (fun w => pyContains ml w) then
    fallbackFoodText
  else if ["환율", "돈", "원화", "엔화"].any (fun w => pyContains ml w) then
    fallbackCurrencyText
  else if ["번역", "말", "어떻게"].any (fun w => pyContains ml w) then
    fallbackTranslateText
  else
    fallbackGenericText

/-- The keyword-parameter names `chat_completion_stream` accepts
(`self` aside, only `messages`; `max_completion_tokens` is commented out
in the source). -/
def streamAcceptedKwargs : List String := ["messages"]

/-- The keyword arguments `chat_stream` passes at
`travel_consultant_agent.py:163-166`. -/
def streamCallKwargs : List String := ["messages", "temperature"]

/-- Python call semantics for keyword arguments: an unexpected keyword
raises `TypeError` before the callee body runs, otherwise the callee
produces its chunks. -/
def callWithKwargs (accepted : List String) (kwargs : List String)
    (chunks : List String) : Except Unit (List String) :=
  if kwargs.all (fun k => accepted.contains k) then .ok chunks else .error ()

/-- `travel_consultant_agent.py::chat_stream` (backend availability, the
chunks the model would stream, the user message, and the trimmed history
are the inputs; the result is the concatenation of everything yielded):
inside `try`, call `chat_completion_stream(messages=..., temperature=0.7)`;
any exception is caught and the canned fallback response is yielded
character by character. -/
def chat_stream (available : Bool) (modelChunks : List String)
    (message : String) (_history : List (String × String)) : List Char :=
  let attempted : Option (List String) :=
    if available then
      match callWithKwargs streamAcceptedKwargs streamCallKwargs modelChunks with
      | .ok chunks => some chunks
      | .error _ => none
    else none
  match attempted with
  | some chunks => (String.join chunks).data
  | none => (generate_fallback_response message).data

/-! ### Concrete inputs used by individual claim theorems -/

/-- A raw schedule that passes every pydantic check (the JSON of
`{"order": 1, "time": "10:00", ...}`). -/
def rawSchedValid : RawSchedule :=
  { order := some 1, time := some "10:00", place := some "장소",
    category := some "sightseeing", duration_min := some 90,
    estimated_cost := 15000, description := "", location := some ⟨345000, 1355000⟩ }

/-- A loaded reply carrying a single day-1 plan - what `json.loads`
produces from
`{"daily_plans": [{"day": 1, "theme": "테마", "schedules": [<rawSchedValid>]}]}`. -/
def oneDayDoc : JsonDoc :=
  { daily_plans := [
      { day := some 1, date := .absent, theme := some "테마",
        schedules := [rawSchedValid] } ] }

/-- A raw schedule whose `time` is `"25:61"`: two digits, colon, two
digits, but not a clock time. -/
def rawSchedBadHour : RawSchedule :=
  { order := some 1, time := some "25:61", place := some "장소",
    category := some "food", duration_min := some 60,
    estimated_cost := 0, description := "", location := some ⟨0, 0⟩ }

/-- A raw schedule whose `time` is the range `"09:00-10:40"`. -/
def rawSchedRange : RawSchedule :=
  { order := some 1, time := some "09:00-10:40", place := some "장소",
    category := some "food", duration_min := some 60,
    estimated_cost := 0, description := "", location := some ⟨0, 0⟩ }

/-- A model that answers every completion with no text and no tool calls. -/
def nullModel : Model := fun _ _ => { content := none, tool_calls := [] }

def noHandlers : Handlers := fun _ => none

/-- A model that first requests the single tool call `tc` and, once a tool
result message is in the transcript, answers with the text `t`. -/
def oneToolThenText (tc : ToolCall) (t : String) : Model :=
  fun msgs _ =>
    if msgs.any (fun m => decide (m.role = Role.tool)) then
      { content := some t, tool_calls := [] }
    else
      { content := none, tool_calls := [tc] }

/-- A handler map with exactly one registered tool. -/
def singleHandler (name : String) (h : String → Except String String) : Handlers :=
  fun n => if n = name then some h else none

/-- The oracle `search` with every raised exception replaced by an empty
success - used to state that per-query failures are isolated. -/
def okifySearch (search : SearchOracle) : SearchOracle :=
  fun q => match search q with
  | .ok r => .ok r
  | .error _ => .ok []

/-- A rate cache none of whose stored results is a fallback result (the
state invariant of `ExchangeTool._cache`). -/
def cacheClean (c : List (String × RateResult)) : Prop :=
  ∀ p ∈ c, (Prod.snd p).is_fallback = false

/-! ## Claim C1 - trip length and day coverage -/

/-- Counterexample to C1: on the LLM-parsing path the day-coverage property
fails.  With a 3-day period (`(end-start).days + 1 = 3`) and a loaded reply
carrying a single valid day-1 plan, `generate_plan` succeeds and returns a
`Trip` with exactly one daily plan, not three. -/
theorem c1_counterexample :
    (generate_plan (some (.ok (some oneDayDoc))) ("u") ("오사카") 0 2 2 500000
        [TravelStyle.food]).daily_plans.length = 1 ∧
    ((2 : Int) - 0).toNat + 1 = 3 := by
  exact ⟨by decide, rfl⟩

/-- C1 (amended): on the fallback path, for every `end ≥ start` the
returned trip has `(end-start).days + 1` daily plans whose `day` fields
are exactly `1..N` in ascending order.  (The LLM-parsing path returns
whatever nonempty list of valid plans was parsed, with no such
guarantee.) -/
theorem c1_amended :
    ∀ (uid destination : String) (s e travelers : Int) (b : Nat)
      (styles : List TravelStyle), s ≤ e →
    (generate_plan none uid destination s e travelers b styles).daily_plans.length =
      (e - s).toNat + 1 ∧
    (generate_plan none uid destination s e travelers b styles).daily_plans.map
        DailyPlan.day =
      (List.range ((e - s).toNat + 1)).map (fun (i : Nat) => (i : Int) + 1) := by
  intro uid destination s e travelers b styles h
  have hN : (e - s + 1).toNat = (e - s).toNat + 1 := by omega
  simp only [generate_plan, generate_daily_plans, generate_mock_plans]
  constructor
  · simp [hN]
  · rw [List.map_map, hN]
    have hfun : ∀ (db : Nat), (DailyPlan.day ∘ mockDay (get_real_places destination)
        (get_real_places destination).themes s db) =
        (fun (i : Nat) => (i : Int) + 1) := fun db => funext fun i => rfl
    rw [hfun]

/-- Witness for C1 (amended) at a concrete 3-day trip. -/
theorem c1_amended_witness :
    (generate_plan none ("u") ("오사카") 0 2 2 100 []).daily_plans.length =
      ((2 : Int) - 0).toNat + 1 ∧
    (generate_plan none ("u") ("오사카") 0 2 2 100 []).daily_plans.map
        DailyPlan.day =
      (List.range (((2 : Int) - 0).toNat + 1)).map (fun (i : Nat) => (i : Int) + 1) :=
  c1_amended ("u") ("오사카") 0 2 2 100 [] (by decide)

/-! ## Claim C2 - schedule time validation -/

/-- Counterexample to C2: the parser accepts `"25:61"` (it matches the
pydantic pattern `\d\x7b2\x7d:\d\x7b2\x7d` though hour 25 and minute 61 are out of
range), and a range-valued time `"09:00-10:40"` makes the item fail
validation and be dropped - it is not normalized to its start bound. -/
theorem c2_counterexample :
    (parse_schedule rawSchedBadHour).map (fun s => (s.time, hhmmStrict s.time)) =
      some (("25:61"), false) ∧
    parse_schedule rawSchedRange = none := by
  exact ⟨by decide, by decide⟩

theorem timeRange_not_timePattern :
    ∀ (t : String), timeRangePattern t = true → timePattern t = false := by
  intro t h
  unfold timeRangePattern at h
  split at h
  · rename_i heq
    simp [timePattern, heq]
  · exact absurd h (by simp)

theorem schedule_ok_time (o : Int) (t pl : String) (dur ec : Int) (desc : String)
    (loc : RawLocation) :
    schedule_ok o t pl dur ec desc loc = true → timePattern t = true := by
  intro h
  simp only [schedule_ok, Bool.and_eq_true] at h
  tauto

theorem parse_schedule_time (r : RawSchedule) (s : Schedule) :
    parse_schedule r = some s → r.time = some s.time ∧ timePattern s.time = true := by
  intro h
  simp only [parse_schedule, Option.bind_eq_some] at h
  obtain ⟨o, ho, t, ht, pl, hpl, cat, hcat, dur, hdur, loc, hloc, c, hc, hif⟩ := h
  by_cases hok : schedule_ok o t pl dur r.estimated_cost r.description loc = true
  · rw [if_pos hok] at hif
    have hs := Option.some.inj hif
    subst hs
    exact ⟨ht, schedule_ok_time o t pl dur r.estimated_cost r.description loc hok⟩
  · rw [if_neg hok] at hif
    exact Option.noConfusion hif

/-- C2 (amended): every accepted schedule's `time` matches the shape
two-digits/colon/two-digits (with no bound on the numeric values), and a
raw time in range form `HH:MM-HH:MM` is rejected - the schedule item is
dropped, not normalized. -/
theorem c2_amended :
    (∀ (r : RawSchedule) (s : Schedule),
      parse_schedule r = some s → timePattern s.time = true) ∧
    (∀ (r : RawSchedule) (t : String),
      r.time = some t → timeRangePattern t = true → parse_schedule r = none) := by
  constructor
  · intro r s h
    exact (parse_schedule_time r s h).2
  · intro r t hrt hrange
    cases hps : parse_schedule r with
    | none => rfl
    | some s =>
        have h2 := parse_schedule_time r s hps
        rw [hrt] at h2
        have ht : t = s.time := Option.some.inj h2.1
        rw [ht] at hrange
        rw [timeRange_not_timePattern s.time hrange] at h2
        exact absurd h2.2 (by simp)

/-- Witness for C2 (amended) at concrete raw schedules. -/
theorem c2_witness :
    timePattern (("10:00" : String)) = true ∧ parse_schedule rawSchedRange = none := by
  exact ⟨c2_amended.1 rawSchedValid
      ⟨1, "10:00", "장소", .sightseeing, 90, 15000, "", 345000, 1355000⟩ (by decide),
    c2_amended.2 rawSchedRange ("09:00-10:40") rfl (by decide)⟩

/-! ## Claim C3 - completion-call budget of the tool loop -/

/-- Counterexample to C3: with `max_iterations = 1` and a model that
returns neither text nor tool calls, `execute_with_tools` makes 2
completion calls (the loop call plus the empty-content recovery call) and
returns null content. -/
theorem c3_counterexample :
    (execute_with_tools nullModel noHandlers 1 []).model_calls = 2 ∧
    (execute_with_tools nullModel noHandlers 1 []).content = none := by
  exact ⟨rfl, rfl⟩

theorem ewtGo_bounds (model : Model) (handlers : Handlers) :
    ∀ (rem : Nat) (msgs : List Msg) (used : List String) (iters calls : Nat),
    (ewtGo model handlers rem msgs used iters calls).model_calls ≤ calls + rem + 1 ∧
    (ewtGo model handlers rem msgs used iters calls).iterations ≤ iters + rem := by
  intro rem
  induction rem with
  | zero =>
      intro msgs used iters calls
      simp [ewtGo]
  | succ n ih =>
      intro msgs used iters calls
      simp only [ewtGo]
      repeat' split
      all_goals
        first
        | (dsimp only; exact ⟨by omega, by omega⟩)
        | (refine ⟨le_trans (ih _ _ _ _).1 ?_, le_trans (ih _ _ _ _).2 ?_⟩ <;> omega)

/-- C3 (amended): `execute_with_tools` makes at most `max_iterations + 1`
completion calls (the extra call is the forced no-tools recovery /
exhaustion call) and runs at most `max_iterations` loop iterations; the
returned content is the last call's content and may be null. -/
theorem c3_amended :
    ∀ (model : Model) (handlers : Handlers) (max_iterations : Nat) (messages : List Msg),
    (execute_with_tools model handlers max_iterations messages).model_calls ≤
      max_iterations + 1 ∧
    (execute_with_tools model handlers max_iterations messages).iterations ≤
      max_iterations := by
  intro model handlers maxIter msgs
  have h := ewtGo_bounds model handlers maxIter msgs [] 0 0
  simpa [execute_with_tools] using h

/-! ## Claim C4 - tool-handler failure isolation -/

/-- C4: a raised tool handler is caught and converted into the JSON error
payload appended as that tool's result message, the attempted tool name is
still recorded in `tools_used`, and the loop continues to the next model
call and terminates with that model's text instead of aborting. -/
theorem c4_tool_error_isolated :
    (∀ (handlers : Handlers) (msgs : List Msg) (used : List String) (tc : ToolCall)
       (h : String → Except String String) (e : String),
       handlers tc.name = some h → h tc.args = .error e →
       execToolCall handlers (msgs, used) tc =
         (msgs ++ [toolMsg tc.id (jsonErr e)], used ++ [tc.name])) ∧
    (∀ (tc : ToolCall) (e t : String), t.isEmpty = false →
       execute_with_tools (oneToolThenText tc t)
           (singleHandler tc.name (fun _ => Except.error e)) 3 [] =
         { content := some t, tools_used := [tc.name], iterations := 2, model_calls := 2 }) := by
  constructor
  · intro handlers msgs used tc h e hh he
    simp [execToolCall, hh, he]
  · intro tc e t ht
    simp [execute_with_tools, ewtGo, oneToolThenText, singleHandler, execToolCall,
      assistantMsg, toolMsg, contentFalsy, ht]

/-- Witness for C4 at a concrete failing tool call. -/
theorem c4_witness :
    (execToolCall (singleHandler ("search_places") (fun _ => Except.error ("boom")))
        ([], []) ⟨"call_1", "search_places", "args"⟩ =
      ([] ++ [toolMsg ("call_1") (jsonErr ("boom"))], [] ++ ["search_places"])) ∧
    execute_with_tools (oneToolThenText ⟨"call_1", "search_places", "args"⟩ ("done"))
        (singleHandler ("search_places") (fun _ => Except.error ("boom"))) 3 [] =
      { content := some ("done"), tools_used := ["search_places"],
        iterations := 2, model_calls := 2 } := by
  exact ⟨c4_tool_error_isolated.1
      (singleHandler ("search_places") (fun _ => Except.error ("boom"))) [] []
      ⟨"call_1", "search_places", "args"⟩ (fun _ => Except.error ("boom")) ("boom")
      (by simp [singleHandler]) rfl,
    c4_tool_error_isolated.2 ⟨"call_1", "search_places", "args"⟩ ("boom") ("done")
      (by decide)⟩

/-! ## Claim C5 - retry of transient completion errors -/

/-- C5 (code bug): the tenacity decorator of `chat_completion` retries only
on `OpenAIError`, but the function body converts every `OpenAIError` into
`RateLimitException`/`OpenAIException` (not `OpenAIError` subclasses)
before the decorator sees it, so even a transient rate-limit failure makes
exactly one attempt and propagates immediately - no retry ever happens. -/
theorem c5_retry_is_dead_code :
    ∀ (api : Nat → Except AppError CompletionResp) (msg : String),
    api 0 = .error (.openAIErrorRaw msg) →
    pyContains (asciiLower msg) ("rate_limit") = true →
    chat_completion_call api =
      (.error (.rateLimitExc ("OpenAI rate limit exceeded")), 1) ∧
    isOpenAIErrorInstance (.openAIErrorRaw msg) = true ∧
    isOpenAIErrorInstance (.rateLimitExc ("OpenAI rate limit exceeded")) = false := by
  intro api msg h0 hrl
  refine ⟨?_, rfl, rfl⟩
  simp [chat_completion_call, tenacityRun, tenacityGo, chat_completion_body, h0, hrl,
    isOpenAIErrorInstance]

/-- Witness for C5: an API that raises a rate-limit `OpenAIError` on every
attempt still produces exactly one attempt. -/
theorem c5_witness :
    chat_completion_call (fun _ => .error (.openAIErrorRaw ("rate_limit exceeded"))) =
      (.error (.rateLimitExc ("OpenAI rate limit exceeded")), 1) ∧
    isOpenAIErrorInstance (.openAIErrorRaw ("rate_limit exceeded")) = true ∧
    isOpenAIErrorInstance (.rateLimitExc ("OpenAI rate limit exceeded")) = false := by
  exact c5_retry_is_dead_code (fun _ => .error (.openAIErrorRaw ("rate_limit exceeded")))
    ("rate_limit exceeded") rfl (by decide)

/-! ## Claim C6 - JSON extraction -/

/-- Counterexample to C6: the code does not search for a fenced code block
first; on a reply whose fenced block is followed by more braces, the code's
first-brace-to-last-brace span differs from the fenced-block-first
extraction the spec describes. -/
theorem c6_counterexample :
    extract_json (("```\x7b1\x7d``` \x7b2\x7d").data) ≠
      extract_json_spec (("```\x7b1\x7d``` \x7b2\x7d").data) := by
  decide

theorem pyFindChar_decomp (p : Char → Bool) :
    ∀ (s : List Char) (i : Nat), pyFindChar p s = some i →
    ∃ a c b, s = a ++ c :: b ∧ a.length = i ∧ p c = true ∧ ∀ x ∈ a, p x = false := by
  intro s
  induction s with
  | nil => intro i h; exact Option.noConfusion h
  | cons c cs ih =>
      intro i h
      by_cases hp : p c = true
      · rw [pyFindChar, if_pos hp] at h
        have hi := Option.some.inj h
        exact ⟨[], c, cs, by simp, by simp [← hi], hp, by simp⟩
      · rw [pyFindChar, if_neg hp] at h
        rw [Option.map_eq_some'] at h
        obtain ⟨j, hj, hi⟩ := h
        obtain ⟨a, c2, b, hs, hlen, hpc, hall⟩ := ih j hj
        refine ⟨c :: a, c2, b, by rw [hs]; rfl, by simp [hlen, ← hi], hpc, ?_⟩
        intro x hx
        rcases List.mem_cons.mp hx with hx | hx
        · rw [hx]; exact Bool.not_eq_true _ ▸ (by simpa using hp)
        · exact hall x hx

theorem pyRFindChar_decomp (p : Char → Bool) :
    ∀ (s : List Char) (j : Nat), pyRFindChar p s = some j →
    ∃ a c b, s = a ++ c :: b ∧ a.length = j ∧ p c = true ∧ ∀ x ∈ b, p x = false := by
  intro s j h
  rw [pyRFindChar, Option.map_eq_some'] at h
  obtain ⟨k, hk, hj⟩ := h
  obtain ⟨a, c, b, hs, hlen, hpc, hall⟩ := pyFindChar_decomp p s.reverse k hk
  have hsr : s = b.reverse ++ c :: a.reverse := by
    have := congrArg List.reverse hs
    rw [List.reverse_reverse] at this
    rw [this]
    simp
  have hslen : s.length = a.length + 1 + b.length := by
    have := congrArg List.length hs
    simpa [Nat.add_comm, Nat.add_assoc, Nat.add_left_comm] using this
  refine ⟨b.reverse, c, a.reverse, hsr, ?_, hpc, ?_⟩
  · simp only [List.length_reverse]
    omega
  · intro x hx
    exact hall x (List.mem_reverse.mp hx)

/-- C6 (amended): the extraction always returns the contiguous span of the
reply from its first opening brace to its last closing brace - no opening
brace precedes the span, no closing brace follows it, and it begins with
a brace and ends with one.  There is no fenced-code-block search. -/
theorem c6_amended :
    ∀ (content t : List Char), extract_json content = some t → t ≠ [] →
    ∃ pre post, content = pre ++ t ++ post ∧ (∀ c ∈ pre, c ≠ '{') ∧
      (∀ c ∈ post, c ≠ '}') ∧ t.head? = some '{' ∧ t.getLast? = some '}' := by
  intro s t hext hne
  rw [extract_json] at hext
  cases hf : pyFindChar (· == '{') s with
  | none => rw [hf] at hext; exact Option.noConfusion hext
  | some i =>
  cases hr : pyRFindChar (· == '}') s with
  | none => rw [hf, hr] at hext; exact Option.noConfusion hext
  | some j =>
  rw [hf, hr] at hext
  have htake : (s.drop i).take (j + 1 - i) = t := Option.some.inj hext
  have hij : i ≤ j := by
    by_contra hcon
    have h0 : j + 1 - i = 0 := by omega
    rw [h0, List.take_zero] at htake
    exact hne htake.symm
  obtain ⟨a, c1, b, hs1, hlen1, hp1, hall1⟩ := pyFindChar_decomp (· == '{') s i hf
  obtain ⟨a2, c2, b2, hs2, hlen2, hp2, hall2⟩ := pyRFindChar_decomp (· == '}') s j hr
  have hc1 : c1 = '{' := by simpa using hp1
  have hc2 : c2 = '}' := by simpa using hp2
  subst hc1
  subst hc2
  have hia2 : i ≤ a2.length := by omega
  have hsub0 : i - a2.length = 0 := by omega
  have hsa : s.take i = a := by
    rw [hs1, List.take_append_eq_append_take]
    simp [hlen1]
  have hsa2 : s.take i = a2.take i := by
    rw [hs2, List.take_append_eq_append_take, hsub0]
    simp
  have haa2 : a = a2.take i := by rw [← hsa, hsa2]
  have hdrop2 : s.drop i = a2.drop i ++ '}' :: b2 := by
    rw [hs2, List.drop_append_eq_append_drop, hsub0]
    simp
  have hlen3 : (a2.drop i).length = j - i := by
    rw [List.length_drop]
    omega
  have ht : t = a2.drop i ++ ['}'] := by
    rw [← htake, hdrop2, List.take_append_eq_append_take]
    have h1 : (a2.drop i).take (j + 1 - i) = a2.drop i :=
      List.take_of_length_le (by omega)
    have h2 : j + 1 - i - (a2.drop i).length = 1 := by omega
    rw [h1, h2]
    rfl
  have hdrop1 : s.drop i = ('{' : Char) :: b := by
    rw [hs1, List.drop_append_eq_append_drop]
    simp [hlen1]
  refine ⟨a, b2, ?_, ?_, ?_, ?_, ?_⟩
  · rw [ht, haa2, hs2]
    simp only [List.append_assoc, List.singleton_append]
    rw [← List.append_assoc, List.take_append_drop]
  · intro x hx
    have := hall1 x hx
    simpa using this
  · intro x hx
    have := hall2 x hx
    simpa using this
  · rw [← htake, hdrop1]
    obtain ⟨m, hm⟩ : ∃ m, j + 1 - i = m + 1 := ⟨j - i, by omega⟩
    rw [hm, List.take_succ_cons]
    rfl
  · rw [ht]
    exact List.getLast?_concat _

/-- Witness for C6 (amended) at a concrete reply. -/
theorem c6_witness :
    ∃ pre post, (("a\x7bb\x7dc").data) = pre ++ (("\x7bb\x7d").data) ++ post ∧
      (∀ c ∈ pre, c ≠ '{') ∧ (∀ c ∈ post, c ≠ '}') ∧
      (("\x7bb\x7d").data).head? = some '{' ∧
      (("\x7bb\x7d").data).getLast? = some '}' :=
  c6_amended (("a\x7bb\x7dc").data) (("\x7bb\x7d").data) (by decide) (by decide)

/-! ## Claim C7 - Osaka fallback scenario -/

/-- C7: with destination 오사카, a 3-day period, 2 travelers, styles
food+sightseeing and no LLM backend configured, the generated trip has 3
daily plans, each with exactly 5 schedule items at
09:30/11:00/13:30/15:30/18:00 in categories
food/sightseeing/food/activity/food, and no place name occurs twice
anywhere in the trip (for every budget). -/
theorem c7_osaka_fallback :
    ∀ (budget : Nat) (uid : String),
    (generate_plan none uid ("오사카") 0 2 2 budget
        [TravelStyle.food, TravelStyle.sightseeing]).daily_plans.length = 3 ∧
    (generate_plan none uid ("오사카") 0 2 2 budget
        [TravelStyle.food, TravelStyle.sightseeing]).daily_plans.map
        (fun d => d.schedules.map Schedule.time) =
      [["09:30", "11:00", "13:30", "15:30", "18:00"],
       ["09:30", "11:00", "13:30", "15:30", "18:00"],
       ["09:30", "11:00", "13:30", "15:30", "18:00"]] ∧
    (generate_plan none uid ("오사카") 0 2 2 budget
        [TravelStyle.food, TravelStyle.sightseeing]).daily_plans.map
        (fun d => d.schedules.map Schedule.category) =
      [[.food, .sightseeing, .food, .activity, .food],
       [.food, .sightseeing, .food, .activity, .food],
       [.food, .sightseeing, .food, .activity, .food]] ∧
    ((generate_plan none uid ("오사카") 0 2 2 budget
        [TravelStyle.food, TravelStyle.sightseeing]).daily_plans.flatMap
        (fun d => d.schedules.map Schedule.place)).Nodup := by
  intro budget uid
  refine ⟨rfl, rfl, rfl, ?_⟩
  have h : (generate_plan none uid ("오사카") 0 2 2 budget
      [TravelStyle.food, TravelStyle.sightseeing]).daily_plans.flatMap
      (fun d => d.schedules.map Schedule.place) =
      ["이치란 라멘 도톤보리점", "오사카성 천수각", "쿠라스시 도톤보리점", "유니버설 스튜디오 재팬", "칸자키 갓텐 스시",
       "마루카메 제면 난바점", "도톤보리 글리코상", "하루카스 다이닝", "신세카이 쟝쟝요코초", "다루마 신세카이 본점",
       "에그슬럿 오사카", "츠텐카쿠 전망대", "치보 본점", "구로몬 시장", "아지노야 본점"] := rfl
  rw [h]
  decide

/-! ## Claim C8 - one search per style -/

/-- Counterexample to C8: for the single style food, `_collect_places`
issues three `search_places` calls (one per keyword of the style's query
list), not exactly one. -/
theorem c8_counterexample :
    (collect_places (fun _ => .ok []) [TravelStyle.food]).2 =
      ["맛집", "레스토랑", "현지 음식"] ∧
    ((collect_places (fun _ => .ok []) [TravelStyle.food]).2).length ≠ 1 := by
  exact ⟨rfl, by decide⟩

theorem collectStep_log (search : SearchOracle) :
    ∀ (qs : List String) (acc : List String × List String),
    (qs.foldl (collectStep search) acc).2 = acc.2 ++ qs := by
  intro qs
  induction qs with
  | nil => intro acc; simp
  | cons q qs ih =>
      intro acc
      simp only [List.foldl_cons]
      rw [ih]
      cases h : search q <;> simp [collectStep, h]

theorem collectStep_okify (search : SearchOracle) :
    ∀ (qs : List String) (acc : List String × List String),
    qs.foldl (collectStep search) acc = qs.foldl (collectStep (okifySearch search)) acc := by
  intro qs
  induction qs with
  | nil => intro acc; rfl
  | cons q qs ih =>
      intro acc
      simp only [List.foldl_cons]
      rw [ih]
      cases h : search q <;> simp [collectStep, okifySearch, h]

theorem collectStyles_log (search : SearchOracle) :
    ∀ (styles : List TravelStyle) (acc : List (TravelStyle × List String) × List String),
    (styles.foldl (collectStylesStep search) acc).2 = acc.2 ++ styles.flatMap style_queries := by
  intro styles
  induction styles with
  | nil => intro acc; simp
  | cons st sts ih =>
      intro acc
      simp only [List.foldl_cons, List.flatMap_cons]
      rw [ih]
      have hr := collectStep_log search (style_queries st) ([], [])
      rw [List.nil_append] at hr
      dsimp only [collectStylesStep, collectStyle]
      rw [hr, List.append_assoc]

theorem collectStyles_okify (search : SearchOracle) :
    ∀ (styles : List TravelStyle) (acc : List (TravelStyle × List String) × List String),
    styles.foldl (collectStylesStep search) acc =
      styles.foldl (collectStylesStep (okifySearch search)) acc := by
  intro styles
  induction styles with
  | nil => intro acc; rfl
  | cons st sts ih =>
      intro acc
      simp only [List.foldl_cons]
      rw [ih]
      congr 1
      dsimp only [collectStylesStep, collectStyle]
      rw [collectStep_okify search (style_queries st) ([], [])]

/-- C8 (amended): the collection step issues one `search_places` call per
(style, keyword) pair - the full query log is exactly the concatenation of
each requested style's keyword list (three keywords per style) - and a
query whose search raises is isolated: replacing every raised search by an
empty success changes nothing, so one failure never blocks the others. -/
theorem c8_amended :
    ∀ (search : SearchOracle) (styles : List TravelStyle),
    (collect_places search styles).2 = styles.flatMap style_queries ∧
    collect_places search styles = collect_places (okifySearch search) styles := by
  intro search styles
  constructor
  · simpa [collect_places] using collectStyles_log search styles ([], [])
  · simpa [collect_places] using collectStyles_okify search styles ([], [])

/-! ## Claim C9 - exchange-rate fallback tagging -/

theorem cacheClean_append (c : List (String × RateResult)) (k : String)
    (r : RateResult) (hc : cacheClean c) (hr : r.is_fallback = false) :
    cacheClean (c ++ [(k, r)]) := by
  intro p hp
  rcases List.mem_append.mp hp with h | h
  · exact hc p h
  · rw [List.mem_singleton.mp h]
    exact hr

theorem lookupCache_mem :
    ∀ (k : String) (c : List (String × RateResult)) (r : RateResult),
    lookupCache k c = some r → (k, r) ∈ c := by
  intro k c
  induction c with
  | nil => intro r h; exact Option.noConfusion h
  | cons p rest ih =>
      intro r h
      obtain ⟨k2, v⟩ := p
      rw [lookupCache] at h
      by_cases hk : k = k2
      · rw [if_pos hk] at h
        have hv := Option.some.inj h
        subst hk
        subst hv
        exact List.mem_cons_self _ _
      · rw [if_neg hk] at h
        exact List.mem_cons_of_mem _ (ih r h)

/-- C9: starting from a cache holding only authoritative results, a call's
result is tagged `is_fallback = true` exactly when the fallback path was
taken (cache miss and provider exception / non-200 status / missing
currency); an authoritative result - fresh success or cache hit - never
carries the tag, and the cache never stores a fallback result. -/
theorem c9_fallback_tagging :
    ∀ (cache : List (String × RateResult)) (api : ApiOutcome) (f t : String),
    cacheClean cache →
    ((get_exchange_rate cache api f t).1.is_fallback =
      ((lookupCache (rateCacheKey (asciiUpper f) (asciiUpper t)) cache).isNone &&
        fallbackTaken api (asciiUpper t))) ∧
    cacheClean (get_exchange_rate cache api f t).2 := by
  intro cache api f t hinv
  cases hl : lookupCache (rateCacheKey (asciiUpper f) (asciiUpper t)) cache with
  | some r =>
      constructor
      · simp only [get_exchange_rate, hl, Option.isNone_some, Bool.false_and]
        exact hinv _ (lookupCache_mem _ _ _ hl)
      · have h2 : (get_exchange_rate cache api f t).2 = cache := by
          simp [get_exchange_rate, hl]
        rw [h2]
        exact hinv
  | none =>
      cases api with
      | excRaised =>
          constructor
          · simp [get_exchange_rate, hl, get_fallback_rate, fallbackTaken]
          · have h2 : (get_exchange_rate cache .excRaised f t).2 = cache := by
              simp [get_exchange_rate, hl]
            rw [h2]
            exact hinv
      | status code rates =>
          by_cases hcode : code = 200
          · subst hcode
            cases hlr : lookupRate (asciiUpper t) rates with
            | none =>
                constructor
                · simp [get_exchange_rate, hl, hlr, get_fallback_rate, fallbackTaken]
                · have h2 : (get_exchange_rate cache (.status 200 rates) f t).2 = cache := by
                    simp [get_exchange_rate, hl, hlr]
                  rw [h2]
                  exact hinv
            | some rate =>
                constructor
                · simp [get_exchange_rate, hl, hlr, fallbackTaken]
                · simp only [get_exchange_rate, hl, hlr]
                  simp only [ne_eq, not_true_eq_false, if_false, ite_false]
                  exact cacheClean_append cache _ _ hinv rfl
          · constructor
            · simp [get_exchange_rate, hl, hcode, get_fallback_rate, fallbackTaken]
            · have h2 : (get_exchange_rate cache (.status code rates) f t).2 = cache := by
                simp [get_exchange_rate, hl, hcode]
              rw [h2]
              exact hinv

/-- Witness for C9 at an empty cache and a raised provider call. -/
theorem c9_witness :
    ((get_exchange_rate [] .excRaised ("KRW") ("JPY")).1.is_fallback =
      ((lookupCache (rateCacheKey (asciiUpper ("KRW")) (asciiUpper ("JPY"))) []).isNone &&
        fallbackTaken .excRaised (asciiUpper ("JPY")))) ∧
    cacheClean (get_exchange_rate [] .excRaised ("KRW") ("JPY")).2 :=
  c9_fallback_tagging [] .excRaised ("KRW") ("JPY")
    (fun p hp => absurd hp (List.not_mem_nil p))

/-! ## Claim C10 - streaming chat always yields the canned fallback -/

/-- C10: for every message, history, availability flag and would-be model
chunk stream, `chat_stream` yields exactly the keyword-triggered canned
fallback response, character by character, and never model chunks and
never an error - because the call passes a `temperature` keyword that
`chat_completion_stream` does not accept, which raises `TypeError` inside
the `try` and is caught. -/
theorem c10_stream_always_canned :
    ∀ (available : Bool) (modelChunks : List String) (message : String)
      (history : List (String × String)),
    chat_stream available modelChunks message history =
      (generate_fallback_response message).data ∧
    streamCallKwargs.all (fun k => streamAcceptedKwargs.contains k) = false := by
  intro available modelChunks message history
  refine ⟨?_, rfl⟩
  cases available <;> rfl
